import Mathlib

/-!
Shallow embedding of the `EventStore` class (src/unnamed/part_000) of the
Booster event-sourcing framework.

Timestamps are ISO-8601 strings (string-sortable), exactly as in the source.
The opaque domain payload (`value` of an envelope) is modelled as `Int`;
reducers are arbitrary functions over it, and a reducer that throws is
modelled as returning `Except.error msg` carrying the original error.
Provider I/O (loads and the snapshot store) is modelled by a pure provider
structure for the loads plus an explicit trace of provider operations
emitted by each public operation, so that frame claims ("performs no store
call") are statable.
-/

/-- ISO-8601 timestamp string, string-sortable, as used throughout the source. -/
abbrev Timestamp := String

/-- The sentinel `new Date(0).toISOString()` — Unix epoch (src line 10). -/
def originOfTime : Timestamp := "1970-01-01T00:00:00.000Z"

/-- Opaque domain payload carried by envelopes; the core never inspects it. -/
abbrev Value := Int

/-- Modelled from the spec: the `kind` discriminator of an envelope
(`event` | `snapshot`), from the framework-types package which is not
under src/. -/
inductive Kind where
  | event
  | snapshot
deriving DecidableEq

/-- Modelled from the spec: the `EventEnvelope` record of the
framework-types package (not under src/), with the fields the spec's data
model lists. `value` is `Option Value` because a reducer may return null;
`snapshottedEventCreatedAt` is optional because only snapshot envelopes
carry it. -/
structure EventEnvelope where
  entityTypeName : String
  entityID : String
  typeName : String
  value : Option Value
  createdAt : Timestamp
  requestID : String
  kind : Kind
  version : Nat
  snapshottedEventCreatedAt : Option Timestamp
deriving DecidableEq

/-- A reducer: `(eventValue, previousEntityValueOrNull) -> newEntityValueOrNull`,
which may throw (modelled as `Except.error` carrying the thrown message). -/
abbrev Reducer := Option Value → Option Value → Except String (Option Value)

/-- Modelled from the spec: the registered reducer reference held in
`config.reducers[eventName]` (framework-types, not under src/): a holder
class name, a method name, and the result of the dynamic property access
`(metadata.class)[metadata.methodName]` — `none` models an access that
throws, i.e. a reference that cannot be resolved to a callable. -/
structure ReducerMetadata where
  className : String
  methodName : String
  resolved : Option Reducer

/-- Modelled from the spec: the slice of `BoosterConfig` the EventStore
uses — the reducer registry (event-type name to reducer reference) and
`currentVersionFor` (entity-type name to current schema version). -/
structure BoosterConfig where
  reducers : String → Option ReducerMetadata
  currentVersionFor : String → Nat

/-- Modelled from the spec: the read side of the external persistence
provider (§6) — `latestEntitySnapshot` and `forEntitySince`. The write
side (`store`) is modelled by the operation trace below. -/
structure ProviderLibrary where
  latestEntitySnapshot : String → String → Option Timestamp → Option EventEnvelope
  forEntitySince : String → String → Timestamp → List EventEnvelope

/-- One provider interaction performed by an EventStore operation; public
operations return the list of interactions they performed, in order. -/
inductive ProviderOp where
  | loadLatestSnapshot (entityName : String) (entityID : String) (atTime : Option Timestamp)
  | loadEventsSince (entityName : String) (entityID : String) (since : Timestamp)
  | storeSnapshot (snapshot : EventEnvelope)
deriving DecidableEq

/-- Number of `storeSnapshot` calls in a provider-operation trace. -/
def storeCount (tr : List ProviderOp) : Nat :=
  tr.countP fun op =>
    match op with
    | ProviderOp.storeSnapshot _ => true
    | _ => false

/-- The errors the EventStore raises (src lines 129, 139) or re-raises
(line 122): `missingReducer` is the `InvalidParameterError` thrown when no
reducer is registered for an event type; `reducerResolution` is the
`Error` thrown when the registered reference cannot be loaded;
`reducerExecution` carries an error thrown by the reducer itself,
re-raised unchanged by `entityReducer`. -/
inductive EventStoreError where
  | missingReducer (eventName : String)
  | reducerResolution (className : String)
  | reducerExecution (msg : String)
deriving DecidableEq

namespace EventStore

/-- Method `reducerForEvent` (src lines 126-142): look the event name up in
`config.reducers`; throw `InvalidParameterError` when nothing is
registered; otherwise resolve the registered reference, throwing when the
dynamic access fails. -/
def reducerForEvent (config : BoosterConfig) (eventName : String) :
    Except EventStoreError Reducer :=
  match config.reducers eventName with
  | none => Except.error (EventStoreError.missingReducer eventName)
  | some reducerMetadata =>
    match reducerMetadata.resolved with
    | some reducer => Except.ok reducer
    | none => Except.error (EventStoreError.reducerResolution reducerMetadata.className)

/-- The expression `latestSnapshot ? latestSnapshot.value : null` (src line 105). -/
def snapshotValueOf (latestSnapshot : Option EventEnvelope) : Option Value :=
  match latestSnapshot with
  | some s => s.value
  | none => none

/-- Method `entityReducer` (src lines 97-124): resolve the reducer for the
event's `typeName`, call it with `(event.value, snapshotValue)`, and wrap
the result in a new snapshot envelope; any error raised inside is
re-raised to the caller. `now` models `new Date().toISOString()`. -/
def entityReducer (config : BoosterConfig) (now : Timestamp)
    (latestSnapshot : Option EventEnvelope) (eventEnvelope : EventEnvelope) :
    Except EventStoreError EventEnvelope :=
  match reducerForEvent config eventEnvelope.typeName with
  | Except.error e => Except.error e
  | Except.ok reducer =>
    match reducer eventEnvelope.value (snapshotValueOf latestSnapshot) with
    | Except.error msg => Except.error (EventStoreError.reducerExecution msg)
    | Except.ok newEntity =>
      Except.ok
        { version := config.currentVersionFor eventEnvelope.entityTypeName
          kind := Kind.snapshot
          requestID := eventEnvelope.requestID
          entityID := eventEnvelope.entityID
          entityTypeName := eventEnvelope.entityTypeName
          typeName := eventEnvelope.entityTypeName
          value := newEntity
          createdAt := now
          snapshottedEventCreatedAt := some eventEnvelope.createdAt }

/-- The fold `pendingEvents.reduce(this.entityReducer.bind(this), seed)`
(src lines 38 and 62): a left fold in which a thrown error aborts the
whole fold. -/
def reduceEvents (config : BoosterConfig) (now : Timestamp)
    (seed : Option EventEnvelope) :
    List EventEnvelope → Except EventStoreError (Option EventEnvelope)
  | [] => Except.ok seed
  | ev :: rest =>
    match entityReducer config now seed ev with
    | Except.error e => Except.error e
    | Except.ok snap => reduceEvents config now (some snap) rest

/-- The cursor `snapshotEnvelope?.snapshottedEventCreatedAt ?? originOfTime`
(src line 28): the cursor timestamp handed to the event-stream load. -/
def lastVisitedTimeOf (snapshotEnvelope : Option EventEnvelope) : Timestamp :=
  match snapshotEnvelope with
  | some s => s.snapshottedEventCreatedAt.getD originOfTime
  | none => originOfTime

/-- Method `fetchEntitySnapshot` (src lines 23-46): load the snapshot (bounded by
`atTime` when given), compute the cursor, load all events after the
cursor, and either return the stored snapshot unchanged (no pending
events) or fold the pending events into it. Returns the result together
with the trace of provider operations performed. -/
def fetchEntitySnapshot (config : BoosterConfig) (provider : ProviderLibrary)
    (now : Timestamp) (entityName : String) (entityID : String)
    (atTime : Option Timestamp) :
    Except EventStoreError (Option EventEnvelope) × List ProviderOp :=
  let snapshotEnvelope := provider.latestEntitySnapshot entityName entityID atTime
  let lastVisitedTime := lastVisitedTimeOf snapshotEnvelope
  let pendingEvents := provider.forEntitySince entityName entityID lastVisitedTime
  let result :=
    if pendingEvents.length ≤ 0 then Except.ok snapshotEnvelope
    else reduceEvents config now snapshotEnvelope pendingEvents
  (result,
   [ProviderOp.loadLatestSnapshot entityName entityID atTime,
    ProviderOp.loadEventsSince entityName entityID lastVisitedTime])

/-- Method `calculateAndStoreEntitySnapshot` (src lines 48-76): load the latest
snapshot (no time bound), fold the caller-supplied pending envelopes into
it; if the fold result is null return the old snapshot without storing,
otherwise store the new snapshot and return it. A thrown error propagates
before any store. -/
def calculateAndStoreEntitySnapshot (config : BoosterConfig)
    (provider : ProviderLibrary) (now : Timestamp) (entityName : String)
    (entityID : String) (pendingEnvelopes : List EventEnvelope) :
    Except EventStoreError (Option EventEnvelope) × List ProviderOp :=
  let latestSnapshotEnvelope := provider.latestEntitySnapshot entityName entityID none
  match reduceEvents config now latestSnapshotEnvelope pendingEnvelopes with
  | Except.error e =>
    (Except.error e, [ProviderOp.loadLatestSnapshot entityName entityID none])
  | Except.ok none =>
    (Except.ok latestSnapshotEnvelope,
     [ProviderOp.loadLatestSnapshot entityName entityID none])
  | Except.ok (some newEntitySnapshot) =>
    (Except.ok (some newEntitySnapshot),
     [ProviderOp.loadLatestSnapshot entityName entityID none,
      ProviderOp.storeSnapshot newEntitySnapshot])

end EventStore

/-- The provider contract of §6: `forEntitySince` returns only events
strictly after the given timestamp. -/
def providerEventsContract (provider : ProviderLibrary) : Prop :=
  ∀ entityName entityID t e,
    e ∈ provider.forEntitySince entityName entityID t → t < e.createdAt

/-! Concrete sample data used to exercise the operations. -/

/-- A reducer that adds the event payload to the accumulated total. -/
def addReducer : Reducer :=
  fun ev acc => Except.ok (some (acc.getD 0 + ev.getD 0))

/-- A reducer that always returns null. -/
def nullReducer : Reducer := fun _ _ => Except.ok none

/-- A reducer that always throws. -/
def throwReducer : Reducer := fun _ _ => Except.error "boom"

/-- Registry with `addReducer` registered for event type `ItemAdded`. -/
def cfgAdd : BoosterConfig :=
  { reducers := fun nm =>
      if nm = "ItemAdded" then
        some { className := "Cart", methodName := "reduceItemAdded",
               resolved := some addReducer }
      else none
    currentVersionFor := fun _ => 1 }

/-- Registry whose `ItemAdded` reducer always returns null. -/
def cfgNull : BoosterConfig :=
  { reducers := fun nm =>
      if nm = "ItemAdded" then
        some { className := "Cart", methodName := "reduceItemAdded",
               resolved := some nullReducer }
      else none
    currentVersionFor := fun _ => 1 }

/-- Registry whose `ItemAdded` reducer always throws. -/
def cfgThrow : BoosterConfig :=
  { reducers := fun nm =>
      if nm = "ItemAdded" then
        some { className := "Cart", methodName := "reduceItemAdded",
               resolved := some throwReducer }
      else none
    currentVersionFor := fun _ => 1 }

/-- Registry where `ItemAdded` is registered but its reference cannot be
resolved to a callable. -/
def cfgBroken : BoosterConfig :=
  { reducers := fun nm =>
      if nm = "ItemAdded" then
        some { className := "Cart", methodName := "reduceItemAdded",
               resolved := none }
      else none
    currentVersionFor := fun _ => 1 }

/-- Registry with no reducer registered at all. -/
def cfgEmpty : BoosterConfig :=
  { reducers := fun _ => none
    currentVersionFor := fun _ => 1 }

/-- A sample event for entity `Cart` with ID `c1`. -/
def evA : EventEnvelope :=
  { entityTypeName := "Cart", entityID := "c1", typeName := "ItemAdded",
    value := some 2, createdAt := "2020-01-02", requestID := "r1",
    kind := Kind.event, version := 0, snapshottedEventCreatedAt := none }

/-- A later sample event for the same entity. -/
def evB : EventEnvelope :=
  { entityTypeName := "Cart", entityID := "c1", typeName := "ItemAdded",
    value := some 3, createdAt := "2020-01-03", requestID := "r2",
    kind := Kind.event, version := 0, snapshottedEventCreatedAt := none }

/-- A stored snapshot for the same entity, cursor `2020-01-01`. -/
def snapA : EventEnvelope :=
  { entityTypeName := "Cart", entityID := "c1", typeName := "Cart",
    value := some 5, createdAt := "2020-01-01", requestID := "r0",
    kind := Kind.snapshot, version := 1,
    snapshottedEventCreatedAt := some "2020-01-01" }

/-- Provider holding neither snapshots nor events. -/
def provEmpty : ProviderLibrary :=
  { latestEntitySnapshot := fun _ _ _ => none
    forEntitySince := fun _ _ _ => [] }

/-- Provider holding the stored snapshot `snapA` and no events. -/
def provSnapOnly : ProviderLibrary :=
  { latestEntitySnapshot := fun _ _ _ => some snapA
    forEntitySince := fun _ _ _ => [] }

/-- Provider holding no snapshot and the single event `evA`, returned
when queried from the beginning of time. -/
def provEventsOnly : ProviderLibrary :=
  { latestEntitySnapshot := fun _ _ _ => none
    forEntitySince := fun _ _ t => if t = originOfTime then [evA] else [] }

/-- The snapshot envelope produced by folding `evA` from scratch with
`cfgAdd` at fold time `t1`. -/
def snapFromEvA : EventEnvelope :=
  { entityTypeName := "Cart", entityID := "c1", typeName := "Cart",
    value := some 2, createdAt := "t1", requestID := "r1",
    kind := Kind.snapshot, version := 1,
    snapshottedEventCreatedAt := some "2020-01-02" }

/-- The snapshot envelope produced by folding `evA` from scratch with
`cfgNull` (whose reducer returns null) at fold time `t1`. -/
def snapNullA : EventEnvelope :=
  { entityTypeName := "Cart", entityID := "c1", typeName := "Cart",
    value := none, createdAt := "t1", requestID := "r1",
    kind := Kind.snapshot, version := 1,
    snapshottedEventCreatedAt := some "2020-01-02" }

/-! Helper lemmas about the fold. -/

/-- Folding a concatenation folds the first part, then the second from the
reached accumulator; an error in the first part aborts everything. -/
theorem EventStore.reduceEvents_append (config : BoosterConfig) (now : Timestamp)
    (pre rest : List EventEnvelope) (seed : Option EventEnvelope) :
    EventStore.reduceEvents config now seed (pre ++ rest) =
      match EventStore.reduceEvents config now seed pre with
      | Except.error e => Except.error e
      | Except.ok acc => EventStore.reduceEvents config now acc rest := by
  induction pre generalizing seed with
  | nil => simp [EventStore.reduceEvents]
  | cons ev pre ih =>
    cases h : EventStore.entityReducer config now seed ev with
    | error e => simp [EventStore.reduceEvents, h]
    | ok snap => simp [EventStore.reduceEvents, h, ih]

/-- Inversion of a successful `entityReducer` step: the reducer resolved,
ran without throwing, and the result is exactly the snapshot envelope the
source builds. -/
theorem EventStore.entityReducer_ok_elim (config : BoosterConfig) (now : Timestamp)
    (acc : Option EventEnvelope) (ev : EventEnvelope) (snap : EventEnvelope)
    (h : EventStore.entityReducer config now acc ev = Except.ok snap) :
    ∃ reducer newEntity,
      EventStore.reducerForEvent config ev.typeName = Except.ok reducer ∧
      reducer ev.value (EventStore.snapshotValueOf acc) = Except.ok newEntity ∧
      snap = { version := config.currentVersionFor ev.entityTypeName
               kind := Kind.snapshot
               requestID := ev.requestID
               entityID := ev.entityID
               entityTypeName := ev.entityTypeName
               typeName := ev.entityTypeName
               value := newEntity
               createdAt := now
               snapshottedEventCreatedAt := some ev.createdAt } := by
  unfold EventStore.entityReducer at h
  split at h
  · exact absurd h (by simp)
  next reducer hr =>
    split at h
    · exact absurd h (by simp)
    next newEntity hv =>
      injection h with h2
      exact ⟨reducer, newEntity, hr, hv, h2.symm⟩

/-- When no reducer is registered for the event type, `entityReducer`
throws the missing-reducer error. -/
theorem EventStore.entityReducer_missing (config : BoosterConfig) (now : Timestamp)
    (acc : Option EventEnvelope) (ev : EventEnvelope)
    (h : config.reducers ev.typeName = none) :
    EventStore.entityReducer config now acc ev =
      Except.error (EventStoreError.missingReducer ev.typeName) := by
  simp [EventStore.entityReducer, EventStore.reducerForEvent, h]

/-- When a reducer is registered but its reference does not resolve to a
callable, `entityReducer` throws the resolution error. -/
theorem EventStore.entityReducer_resolution (config : BoosterConfig) (now : Timestamp)
    (acc : Option EventEnvelope) (ev : EventEnvelope) (md : ReducerMetadata)
    (h : config.reducers ev.typeName = some md) (h2 : md.resolved = none) :
    EventStore.entityReducer config now acc ev =
      Except.error (EventStoreError.reducerResolution md.className) := by
  simp [EventStore.entityReducer, EventStore.reducerForEvent, h, h2]

/-- When the resolved reducer itself throws, `entityReducer` re-raises the
thrown error. -/
theorem EventStore.entityReducer_throws (config : BoosterConfig) (now : Timestamp)
    (acc : Option EventEnvelope) (ev : EventEnvelope) (reducer : Reducer) (msg : String)
    (h : EventStore.reducerForEvent config ev.typeName = Except.ok reducer)
    (h2 : reducer ev.value (EventStore.snapshotValueOf acc) = Except.error msg) :
    EventStore.entityReducer config now acc ev =
      Except.error (EventStoreError.reducerExecution msg) := by
  simp [EventStore.entityReducer, h, h2]

/-- Inversion of a successful fold over a list with a last element: the
result is the snapshot produced by folding that last element. -/
theorem EventStore.reduceEvents_concat_ok (config : BoosterConfig) (now : Timestamp)
    (seed : Option EventEnvelope) (pre : List EventEnvelope) (ev : EventEnvelope)
    (r : Option EventEnvelope)
    (h : EventStore.reduceEvents config now seed (pre ++ [ev]) = Except.ok r) :
    ∃ acc snap, EventStore.reduceEvents config now seed pre = Except.ok acc ∧
      EventStore.entityReducer config now acc ev = Except.ok snap ∧ r = some snap := by
  rw [EventStore.reduceEvents_append] at h
  cases hp : EventStore.reduceEvents config now seed pre with
  | error e => rw [hp] at h; exact absurd h (by simp)
  | ok acc =>
    rw [hp] at h
    cases he : EventStore.entityReducer config now acc ev with
    | error e => simp [EventStore.reduceEvents, he] at h
    | ok snap =>
      refine ⟨acc, snap, rfl, he, ?_⟩
      simp [EventStore.reduceEvents, he] at h
      exact h.symm

/-- A step error at any reached position aborts the whole fold with that
error. -/
theorem EventStore.reduceEvents_error_at (config : BoosterConfig) (now : Timestamp)
    (seed : Option EventEnvelope) (pre : List EventEnvelope)
    (acc : Option EventEnvelope) (ev : EventEnvelope) (rest : List EventEnvelope)
    (e : EventStoreError)
    (hp : EventStore.reduceEvents config now seed pre = Except.ok acc)
    (he : EventStore.entityReducer config now acc ev = Except.error e) :
    EventStore.reduceEvents config now seed (pre ++ ev :: rest) = Except.error e := by
  rw [EventStore.reduceEvents_append, hp]
  simp [EventStore.reduceEvents, he]

/-! Claim theorems. -/

/-- C6: `fetchEntitySnapshot` never writes to the persistence provider —
on every call its provider-operation trace contains zero store
operations; only `calculateAndStoreEntitySnapshot` can emit one. -/
theorem fetchEntitySnapshot_never_stores (config : BoosterConfig)
    (provider : ProviderLibrary) (now : Timestamp)
    (entityName entityID : String) (atTime : Option Timestamp) :
    storeCount
      (EventStore.fetchEntitySnapshot config provider now entityName entityID atTime).2 = 0 :=
  rfl

/-- C8: when the provider holds no stored snapshot and no events for the
entity, `fetchEntitySnapshot` returns null and completes without raising
any error. -/
theorem fetchEntitySnapshot_empty_returns_null (config : BoosterConfig)
    (provider : ProviderLibrary) (now : Timestamp)
    (entityName entityID : String) (atTime : Option Timestamp)
    (hsnap : provider.latestEntitySnapshot entityName entityID atTime = none)
    (hev : provider.forEntitySince entityName entityID originOfTime = []) :
    (EventStore.fetchEntitySnapshot config provider now entityName entityID atTime).1 =
      Except.ok none ∧
    ∀ e, (EventStore.fetchEntitySnapshot config provider now entityName entityID atTime).1 ≠
      Except.error e := by
  have h1 :
      (EventStore.fetchEntitySnapshot config provider now entityName entityID atTime).1 =
        Except.ok none := by
    simp [EventStore.fetchEntitySnapshot, EventStore.lastVisitedTimeOf, hsnap, hev]
  exact ⟨h1, fun e he => by rw [h1] at he; exact absurd he (by simp)⟩

/-- Witness for C8: a provider with no snapshot and no events yields a
null result. -/
theorem fetchEntitySnapshot_empty_returns_null_witness :
    (EventStore.fetchEntitySnapshot cfgAdd provEmpty "t0" "Cart" "c1" none).1 =
      Except.ok none :=
  (fetchEntitySnapshot_empty_returns_null cfgAdd provEmpty "t0" "Cart" "c1" none
    rfl rfl).1

/-- C2: every successful fold step copies `entityID`, `entityTypeName`
and `requestID` from the just-folded event, types the snapshot as its
entity, sets `kind` to snapshot, resolves `version` from the
configuration, and sets `snapshottedEventCreatedAt` to the event's
`createdAt`; hence a successful fold of a list with last element `lastEv`
returns a snapshot whose `snapshottedEventCreatedAt` is
`lastEv.createdAt`. -/
theorem entityReducer_envelope_fields (config : BoosterConfig) (now : Timestamp) :
    (∀ acc ev snap, EventStore.entityReducer config now acc ev = Except.ok snap →
      snap.entityID = ev.entityID ∧ snap.entityTypeName = ev.entityTypeName ∧
      snap.requestID = ev.requestID ∧ snap.typeName = ev.entityTypeName ∧
      snap.kind = Kind.snapshot ∧
      snap.version = config.currentVersionFor ev.entityTypeName ∧
      snap.snapshottedEventCreatedAt = some ev.createdAt) ∧
    (∀ seed pre lastEv r,
      EventStore.reduceEvents config now seed (pre ++ [lastEv]) = Except.ok r →
      ∃ snap, r = some snap ∧
        snap.snapshottedEventCreatedAt = some lastEv.createdAt) := by
  constructor
  · intro acc ev snap h
    obtain ⟨reducer, newEntity, hr, hv, hsnap⟩ :=
      EventStore.entityReducer_ok_elim config now acc ev snap h
    subst hsnap
    exact ⟨rfl, rfl, rfl, rfl, rfl, rfl, rfl⟩
  · intro seed pre lastEv r h
    obtain ⟨acc, snap, hp, he, hr⟩ :=
      EventStore.reduceEvents_concat_ok config now seed pre lastEv r h
    obtain ⟨reducer, newEntity, hfe, hfv, hsnap⟩ :=
      EventStore.entityReducer_ok_elim config now acc lastEv snap he
    subst hsnap
    exact ⟨_, hr, rfl⟩

/-- Witness for C2: folding `evA` from scratch yields exactly
`snapFromEvA`, whose cursor field is `evA.createdAt`. -/
theorem entityReducer_envelope_fields_witness :
    snapFromEvA.snapshottedEventCreatedAt = some evA.createdAt ∧
    snapFromEvA.kind = Kind.snapshot ∧
    snapFromEvA.typeName = evA.entityTypeName := by
  have h := (entityReducer_envelope_fields cfgAdd "t1").1 none evA snapFromEvA rfl
  exact ⟨h.2.2.2.2.2.2, h.2.2.2.2.1, h.2.2.2.1⟩

/-- Counterexample to C3 as stated: with a stored prior snapshot and an
empty pending list, `calculateAndStoreEntitySnapshot` returns the prior
snapshot unchanged but performs one store call (it re-stores the prior
snapshot), contradicting "performs no store call". -/
theorem calculateAndStore_empty_counterexample :
    (EventStore.calculateAndStoreEntitySnapshot cfgAdd provSnapOnly "t1" "Cart" "c1" []).1 =
      Except.ok (some snapA) ∧
    storeCount
      (EventStore.calculateAndStoreEntitySnapshot cfgAdd provSnapOnly "t1" "Cart" "c1" []).2 ≠ 0 := by
  constructor
  · rfl
  · decide

/-- C3 amended: with an empty pending list the call returns the existing
latest snapshot unchanged (null if none); it performs no store call only
when no prior snapshot exists — when one exists, it re-stores that
unchanged prior snapshot (exactly one store call, storing the prior
snapshot itself). -/
theorem calculateAndStore_empty_amended (config : BoosterConfig)
    (provider : ProviderLibrary) (now : Timestamp) (entityName entityID : String) :
    (EventStore.calculateAndStoreEntitySnapshot config provider now entityName entityID []).1 =
      Except.ok (provider.latestEntitySnapshot entityName entityID none) ∧
    (provider.latestEntitySnapshot entityName entityID none = none →
      storeCount
        (EventStore.calculateAndStoreEntitySnapshot config provider now entityName entityID []).2 = 0) ∧
    (∀ s, provider.latestEntitySnapshot entityName entityID none = some s →
      (EventStore.calculateAndStoreEntitySnapshot config provider now entityName entityID []).2 =
        [ProviderOp.loadLatestSnapshot entityName entityID none,
         ProviderOp.storeSnapshot s]) := by
  cases hsnap : provider.latestEntitySnapshot entityName entityID none with
  | none =>
    refine ⟨?_, fun _ => ?_, fun s hs => absurd hs (by simp)⟩ <;>
      simp [EventStore.calculateAndStoreEntitySnapshot, EventStore.reduceEvents,
        hsnap, storeCount]
  | some s0 =>
    refine ⟨?_, fun hn => absurd hn (by simp), fun s hs => ?_⟩
    · simp [EventStore.calculateAndStoreEntitySnapshot, EventStore.reduceEvents, hsnap]
    · injection hs with hs2
      subst hs2
      simp [EventStore.calculateAndStoreEntitySnapshot, EventStore.reduceEvents, hsnap]

/-- Witness for the amended C3: with a stored prior snapshot the empty
fold returns it unchanged and re-stores it. -/
theorem calculateAndStore_empty_amended_witness :
    (EventStore.calculateAndStoreEntitySnapshot cfgAdd provSnapOnly "t1" "Cart" "c1" []).2 =
      [ProviderOp.loadLatestSnapshot "Cart" "c1" none,
       ProviderOp.storeSnapshot snapA] :=
  (calculateAndStore_empty_amended cfgAdd provSnapOnly "t1" "Cart" "c1").2.2 snapA rfl

/-- Helper: `provSnapOnly` satisfies the provider events contract
(vacuously — it returns no events). -/
theorem provSnapOnly_contract : providerEventsContract provSnapOnly := by
  intro entityName entityID t e he
  simp [provSnapOnly] at he

/-- C1: the cursor handed to the event-stream load is the stored
snapshot's `snapshottedEventCreatedAt` when a snapshot was found and the
Unix-epoch sentinel when none exists; under the provider contract every
fetched (hence folded) event is strictly after the cursor, and a
non-empty pending list is folded exactly from the loaded snapshot. -/
theorem fetchEntitySnapshot_cursor (config : BoosterConfig)
    (provider : ProviderLibrary) (now : Timestamp)
    (entityName entityID : String) (atTime : Option Timestamp)
    (hc : providerEventsContract provider) :
    (EventStore.fetchEntitySnapshot config provider now entityName entityID atTime).2 =
      [ProviderOp.loadLatestSnapshot entityName entityID atTime,
       ProviderOp.loadEventsSince entityName entityID
         (EventStore.lastVisitedTimeOf
           (provider.latestEntitySnapshot entityName entityID atTime))] ∧
    (∀ s t, provider.latestEntitySnapshot entityName entityID atTime = some s →
      s.snapshottedEventCreatedAt = some t →
      EventStore.lastVisitedTimeOf
        (provider.latestEntitySnapshot entityName entityID atTime) = t) ∧
    (provider.latestEntitySnapshot entityName entityID atTime = none →
      EventStore.lastVisitedTimeOf
        (provider.latestEntitySnapshot entityName entityID atTime) = originOfTime) ∧
    (∀ e ∈ provider.forEntitySince entityName entityID
        (EventStore.lastVisitedTimeOf
          (provider.latestEntitySnapshot entityName entityID atTime)),
      EventStore.lastVisitedTimeOf
        (provider.latestEntitySnapshot entityName entityID atTime) < e.createdAt) ∧
    (provider.forEntitySince entityName entityID
        (EventStore.lastVisitedTimeOf
          (provider.latestEntitySnapshot entityName entityID atTime)) ≠ [] →
      (EventStore.fetchEntitySnapshot config provider now entityName entityID atTime).1 =
        EventStore.reduceEvents config now
          (provider.latestEntitySnapshot entityName entityID atTime)
          (provider.forEntitySince entityName entityID
            (EventStore.lastVisitedTimeOf
              (provider.latestEntitySnapshot entityName entityID atTime)))) := by
  refine ⟨rfl, ?_, ?_, ?_, ?_⟩
  · intro s t hs ht
    rw [hs]
    simp [EventStore.lastVisitedTimeOf, ht]
  · intro hs
    rw [hs]
    rfl
  · intro e he
    exact hc entityName entityID _ e he
  · intro hne
    simp only [EventStore.fetchEntitySnapshot]
    rw [if_neg fun hle => hne (List.length_eq_zero.mp (Nat.le_zero.mp hle))]

/-- Witness for C1: with a stored snapshot whose cursor field is
`2020-01-01`, that timestamp is the cursor used for the event load. -/
theorem fetchEntitySnapshot_cursor_witness :
    EventStore.lastVisitedTimeOf
      (provSnapOnly.latestEntitySnapshot "Cart" "c1" none) = "2020-01-01" :=
  (fetchEntitySnapshot_cursor cfgAdd provSnapOnly "t0" "Cart" "c1" none
    provSnapOnly_contract).2.1 snapA "2020-01-01" rfl rfl

/-- C7: the optional `atTime` bound affects only which stored snapshot is
selected as fold base — two calls whose snapshot loads agree return the
same result and perform the same event load (same cursor), regardless of
`atTime`. -/
theorem fetchEntitySnapshot_atTime_weak_hint (config : BoosterConfig)
    (provider : ProviderLibrary) (now : Timestamp)
    (entityName entityID : String) (at1 at2 : Option Timestamp)
    (h : provider.latestEntitySnapshot entityName entityID at1 =
         provider.latestEntitySnapshot entityName entityID at2) :
    (EventStore.fetchEntitySnapshot config provider now entityName entityID at1).1 =
      (EventStore.fetchEntitySnapshot config provider now entityName entityID at2).1 ∧
    (EventStore.fetchEntitySnapshot config provider now entityName entityID at1).2.tail =
      (EventStore.fetchEntitySnapshot config provider now entityName entityID at2).2.tail := by
  constructor <;> simp [EventStore.fetchEntitySnapshot, h]

/-- Witness for C7: a provider whose snapshot load ignores the bound gives
identical results for `none` and a restrictive bound. -/
theorem fetchEntitySnapshot_atTime_weak_hint_witness :
    (EventStore.fetchEntitySnapshot cfgAdd provSnapOnly "t0" "Cart" "c1" none).1 =
      (EventStore.fetchEntitySnapshot cfgAdd provSnapOnly "t0" "Cart" "c1"
        (some "2019-01-01")).1 :=
  (fetchEntitySnapshot_atTime_weak_hint cfgAdd provSnapOnly "t0" "Cart" "c1"
    none (some "2019-01-01") rfl).1

/-- C5: when the fold reaches an event whose `typeName` has no registry
entry, `fetchEntitySnapshot` fails with the missing-reducer error
(`InvalidParameterError` in the source), and its trace contains no store
operation. -/
theorem fetchEntitySnapshot_missing_reducer (config : BoosterConfig)
    (provider : ProviderLibrary) (now : Timestamp)
    (entityName entityID : String) (atTime : Option Timestamp)
    (pre rest : List EventEnvelope) (ev : EventEnvelope) (acc : Option EventEnvelope)
    (hevs : provider.forEntitySince entityName entityID
        (EventStore.lastVisitedTimeOf
          (provider.latestEntitySnapshot entityName entityID atTime)) =
        pre ++ ev :: rest)
    (hpre : EventStore.reduceEvents config now
        (provider.latestEntitySnapshot entityName entityID atTime) pre = Except.ok acc)
    (hmiss : config.reducers ev.typeName = none) :
    (EventStore.fetchEntitySnapshot config provider now entityName entityID atTime).1 =
      Except.error (EventStoreError.missingReducer ev.typeName) ∧
    storeCount
      (EventStore.fetchEntitySnapshot config provider now entityName entityID atTime).2 = 0 := by
  have herr := EventStore.reduceEvents_error_at config now
    (provider.latestEntitySnapshot entityName entityID atTime) pre acc ev rest _
    hpre (EventStore.entityReducer_missing config now acc ev hmiss)
  refine ⟨?_, rfl⟩
  simp only [EventStore.fetchEntitySnapshot]
  rw [hevs, if_neg (by simp)]
  exact herr

/-- Witness for C5: an event stream containing `evA` with an empty
registry makes the fetch fail with the missing-reducer error. -/
theorem fetchEntitySnapshot_missing_reducer_witness :
    (EventStore.fetchEntitySnapshot cfgEmpty provEventsOnly "t0" "Cart" "c1" none).1 =
      Except.error (EventStoreError.missingReducer "ItemAdded") ∧
    storeCount
      (EventStore.fetchEntitySnapshot cfgEmpty provEventsOnly "t0" "Cart" "c1" none).2 = 0 :=
  fetchEntitySnapshot_missing_reducer cfgEmpty provEventsOnly "t0" "Cart" "c1" none
    [] [] evA none (by decide) rfl rfl

/-- C4: a reducer invocation that raises during the fold aborts both
`calculateAndStoreEntitySnapshot` and `fetchEntitySnapshot`, re-raising
the reducer's error to the caller, and neither call performs any store
operation in that failed attempt. -/
theorem reducer_error_aborts_fold (config : BoosterConfig)
    (provider : ProviderLibrary) (now : Timestamp) (entityName entityID : String) :
    (∀ (pending pre rest : List EventEnvelope) (ev : EventEnvelope)
       (acc : Option EventEnvelope) (reducer : Reducer) (msg : String),
      pending = pre ++ ev :: rest →
      EventStore.reduceEvents config now
        (provider.latestEntitySnapshot entityName entityID none) pre = Except.ok acc →
      EventStore.reducerForEvent config ev.typeName = Except.ok reducer →
      reducer ev.value (EventStore.snapshotValueOf acc) = Except.error msg →
      (EventStore.calculateAndStoreEntitySnapshot config provider now entityName entityID
          pending).1 =
        Except.error (EventStoreError.reducerExecution msg) ∧
      storeCount
        (EventStore.calculateAndStoreEntitySnapshot config provider now entityName entityID
          pending).2 = 0) ∧
    (∀ (atTime : Option Timestamp) (pre rest : List EventEnvelope) (ev : EventEnvelope)
       (acc : Option EventEnvelope) (reducer : Reducer) (msg : String),
      provider.forEntitySince entityName entityID
        (EventStore.lastVisitedTimeOf
          (provider.latestEntitySnapshot entityName entityID atTime)) = pre ++ ev :: rest →
      EventStore.reduceEvents config now
        (provider.latestEntitySnapshot entityName entityID atTime) pre = Except.ok acc →
      EventStore.reducerForEvent config ev.typeName = Except.ok reducer →
      reducer ev.value (EventStore.snapshotValueOf acc) = Except.error msg →
      (EventStore.fetchEntitySnapshot config provider now entityName entityID atTime).1 =
        Except.error (EventStoreError.reducerExecution msg) ∧
      storeCount
        (EventStore.fetchEntitySnapshot config provider now entityName entityID atTime).2 = 0) := by
  constructor
  · intro pending pre rest ev acc reducer msg hpend hpre hres hthrow
    subst hpend
    have herr := EventStore.reduceEvents_error_at config now
      (provider.latestEntitySnapshot entityName entityID none) pre acc ev rest _
      hpre (EventStore.entityReducer_throws config now acc ev reducer msg hres hthrow)
    refine ⟨?_, ?_⟩ <;>
      simp [EventStore.calculateAndStoreEntitySnapshot, herr, storeCount]
  · intro atTime pre rest ev acc reducer msg hevs hpre hres hthrow
    have herr := EventStore.reduceEvents_error_at config now
      (provider.latestEntitySnapshot entityName entityID atTime) pre acc ev rest _
      hpre (EventStore.entityReducer_throws config now acc ev reducer msg hres hthrow)
    refine ⟨?_, rfl⟩
    simp only [EventStore.fetchEntitySnapshot]
    rw [hevs, if_neg (by simp)]
    exact herr

/-- Witness for C4: a throwing reducer makes the write-path call fail with
its error and store nothing. -/
theorem reducer_error_aborts_fold_witness :
    (EventStore.calculateAndStoreEntitySnapshot cfgThrow provEmpty "t0" "Cart" "c1"
        [evA]).1 =
      Except.error (EventStoreError.reducerExecution "boom") ∧
    storeCount
      (EventStore.calculateAndStoreEntitySnapshot cfgThrow provEmpty "t0" "Cart" "c1"
        [evA]).2 = 0 :=
  (reducer_error_aborts_fold cfgThrow provEmpty "t0" "Cart" "c1").1
    [evA] [] [] evA none throwReducer "boom" rfl rfl rfl rfl

/-- C9: a registered reducer reference that does not resolve to a callable
makes the lookup fail with the resolution error — carried unchanged
through `entityReducer` and the fold to the caller — and that error is
distinct from the missing-reducer error. -/
theorem reducer_resolution_distinct (config : BoosterConfig) (now : Timestamp) :
    ∀ (md : ReducerMetadata) (acc : Option EventEnvelope) (ev : EventEnvelope)
      (rest : List EventEnvelope),
      config.reducers ev.typeName = some md → md.resolved = none →
      EventStore.reducerForEvent config ev.typeName =
        Except.error (EventStoreError.reducerResolution md.className) ∧
      EventStore.entityReducer config now acc ev =
        Except.error (EventStoreError.reducerResolution md.className) ∧
      EventStore.reduceEvents config now acc (ev :: rest) =
        Except.error (EventStoreError.reducerResolution md.className) ∧
      ∀ nm, EventStoreError.reducerResolution md.className ≠
        EventStoreError.missingReducer nm := by
  intro md acc ev rest h h2
  have hE := EventStore.entityReducer_resolution config now acc ev md h h2
  refine ⟨?_, hE, ?_, ?_⟩
  · simp [EventStore.reducerForEvent, h, h2]
  · simp [EventStore.reduceEvents, hE]
  · intro nm
    simp

/-- Witness for C9: a broken registration for `ItemAdded` fails with the
resolution error naming the holder class. -/
theorem reducer_resolution_distinct_witness :
    EventStore.reducerForEvent cfgBroken "ItemAdded" =
      Except.error (EventStoreError.reducerResolution "Cart") := by
  have h := reducer_resolution_distinct cfgBroken "t0"
    { className := "Cart", methodName := "reduceItemAdded", resolved := none }
    none evA [] rfl rfl
  exact h.1

/-- C10: for a non-empty pending list whose fold succeeds, the write path
always returns a freshly folded (non-null) snapshot and performs exactly
one store, storing that snapshot — even when the folded value is null. -/
theorem calculateAndStore_nonempty_stores_once (config : BoosterConfig)
    (provider : ProviderLibrary) (now : Timestamp) (entityName entityID : String)
    (pending : List EventEnvelope) (r : Option EventEnvelope)
    (hne : pending ≠ [])
    (hok : EventStore.reduceEvents config now
      (provider.latestEntitySnapshot entityName entityID none) pending = Except.ok r) :
    ∃ snap, r = some snap ∧
      (EventStore.calculateAndStoreEntitySnapshot config provider now entityName entityID
          pending).1 = Except.ok (some snap) ∧
      (EventStore.calculateAndStoreEntitySnapshot config provider now entityName entityID
          pending).2 =
        [ProviderOp.loadLatestSnapshot entityName entityID none,
         ProviderOp.storeSnapshot snap] ∧
      storeCount
        (EventStore.calculateAndStoreEntitySnapshot config provider now entityName entityID
          pending).2 = 1 := by
  rcases List.eq_nil_or_concat' pending with hnil | ⟨pre, lastEv, hconcat⟩
  · exact absurd hnil hne
  · subst hconcat
    obtain ⟨acc, snap, hp, he, hr⟩ :=
      EventStore.reduceEvents_concat_ok config now _ pre lastEv r hok
    subst hr
    refine ⟨snap, rfl, ?_, ?_, ?_⟩ <;>
      simp [EventStore.calculateAndStoreEntitySnapshot, hok, storeCount]

/-- Witness for C10: folding one event through a null-returning reducer
persists and returns a snapshot envelope whose value is null, instead of
the (absent) prior snapshot. -/
theorem calculateAndStore_nonempty_stores_once_witness :
    (EventStore.calculateAndStoreEntitySnapshot cfgNull provEmpty "t1" "Cart" "c1"
        [evA]).1 = Except.ok (some snapNullA) ∧
    storeCount
      (EventStore.calculateAndStoreEntitySnapshot cfgNull provEmpty "t1" "Cart" "c1"
        [evA]).2 = 1 ∧
    snapNullA.value = none := by
  obtain ⟨snap, hsnap, h1, h2, h3⟩ :=
    calculateAndStore_nonempty_stores_once cfgNull provEmpty "t1" "Cart" "c1"
      [evA] (some snapNullA) (by simp) rfl
  injection hsnap with hs
  subst hs
  exact ⟨h1, h3, rfl⟩
